import Mathlib

/-!
Verification of the request-handling core of a Next.js starter application:
an error classifier, a TTL memory cache, a checkout-resolution route, and a
credit-charging PDF-generation route.  Each TypeScript function is embedded
shallowly as an executable Lean definition; theorems settle the specified
properties against those definitions.
-/

set_option maxHeartbeats 1000000

/-! ## JavaScript string and truthiness helpers -/

/-- Substring test on character lists: `containsSub hay needle` is true when
`needle` occurs contiguously inside `hay` (the semantics of JavaScript
`String.prototype.includes`). -/
def containsSub (hay needle : List Char) : Bool :=
  match hay with
  | [] => needle.isEmpty
  | _ :: t => needle.isPrefixOf hay || containsSub t needle

/-- JavaScript `s.includes(sub)`. -/
def jsIncludes (s sub : String) : Bool :=
  containsSub s.toList sub.toList

/-- JavaScript `s.toLowerCase()`, modelled characterwise (the classifier matches ASCII patterns). -/
def lowerString (s : String) : String :=
  String.mk (s.toList.map Char.toLower)

/-- JavaScript truthiness of an optional string (`undefined` and `""` are falsy). -/
def strTruthy : Option String → Bool
  | none => false
  | some s => !(s = "")

/-- JavaScript truthiness of an optional number (`undefined` and `0` are falsy). -/
def numTruthy : Option Int → Bool
  | none => false
  | some n => !(n = 0)

/-! ## Error handler (error classifier module)

Shallow embedding of the error-handling utility: the `ErrorType` and
`ErrorSeverity` enums, the `AppError` shape, `isAppError`, and the
`ErrorHandler` static methods `createError`, `classifyError` and
`handleError`.  Unknown JavaScript runtime values are modelled by `JSVal`. -/

inductive ErrorType where
  | validation
  | authentication
  | authorization
  | rate_limit
  | payment
  | external_service
  | database
  | network
  | internal
  | not_found
  | conflict
deriving DecidableEq, Repr

inductive ErrorSeverity where
  | low
  | medium
  | high
  | critical
deriving DecidableEq, Repr

/-- A JavaScript runtime value, as far as the error handler inspects one:
`undefined`, `null`, primitives, plain objects (field lists), and `Error`
instances (which carry a message). -/
inductive JSVal where
  | vundef
  | vnull
  | vbool (b : Bool)
  | vnum (n : Int)
  | vstr (s : String)
  | vobj (fields : List (String × JSVal))
  | verror (message : String)
deriving Repr

/-- Property lookup on an object field list. -/
def objGet (fields : List (String × JSVal)) (key : String) : Option JSVal :=
  (fields.find? (fun f => f.1 = key)).map (fun f => f.2)

/-- Whether an optional property currently holds a string (`typeof x === "string"`). -/
def isStrVal : Option JSVal → Bool
  | some (JSVal.vstr _) => true
  | _ => false

/-- JavaScript `String(v)` as used on the unknown-error path. -/
def jsToString : JSVal → String
  | JSVal.vundef => "undefined"
  | JSVal.vnull => "null"
  | JSVal.vbool b => if b then "true" else "false"
  | JSVal.vnum n => toString n
  | JSVal.vstr s => s
  | JSVal.vobj _ => "[object Object]"
  | JSVal.verror m => "Error: " ++ m

structure AppError where
  type : ErrorType
  severity : ErrorSeverity
  message : String
  userMessage : String
  code : Option String
  details : Option JSVal
  suggestions : Option (List String)
  retryable : Bool
deriving Repr

/-- The `isAppError` type guard: a non-null object whose `type` and
`userMessage` properties are both strings. -/
def isAppError : JSVal → Bool
  | JSVal.vobj fields =>
      isStrVal (objGet fields "type") && isStrVal (objGet fields "userMessage")
  | _ => false

/-- Options bag accepted by `ErrorHandler.createError`. -/
structure ErrOptions where
  code : Option String := none
  details : Option JSVal := none
  suggestions : Option (List String) := none
  retryable : Option Bool := none
  severity : Option ErrorSeverity := none

namespace ErrorHandler

/-- Default severity per error type (`getDefaultSeverity`). -/
def getDefaultSeverity : ErrorType → ErrorSeverity
  | ErrorType.validation => ErrorSeverity.low
  | ErrorType.rate_limit => ErrorSeverity.medium
  | ErrorType.network => ErrorSeverity.medium
  | ErrorType.external_service => ErrorSeverity.medium
  | ErrorType.authentication => ErrorSeverity.high
  | ErrorType.authorization => ErrorSeverity.high
  | ErrorType.payment => ErrorSeverity.high
  | ErrorType.database => ErrorSeverity.high
  | _ => ErrorSeverity.critical

/-- Default retryability per error type (`getDefaultRetryable`). -/
def getDefaultRetryable : ErrorType → Bool
  | ErrorType.validation => false
  | ErrorType.authentication => false
  | ErrorType.authorization => false
  | _ => true

/-- The `createError` constructor: `message` is
`technicalMessage || userMessage` (empty string is falsy), `severity` is
`options.severity || default`, `retryable` is `options.retryable ?? default`. -/
def createError (type : ErrorType) (userMessage : String)
    (technicalMessage : Option String) (options : ErrOptions) : AppError :=
  { type := type
    severity := options.severity.getD (getDefaultSeverity type)
    message :=
      match technicalMessage with
      | some t => if t = "" then userMessage else t
      | none => userMessage
    userMessage := userMessage
    code := options.code
    details := options.details
    suggestions := options.suggestions
    retryable := options.retryable.getD (getDefaultRetryable type) }

/-- The `classifyError` chain, translated branch by branch from the source.
`message` is the message of the thrown error; `context` the optional caller
context.  Both are lowercased before substring matching. -/
def classifyError (message : String) (context : Option String) : AppError :=
  let msg := lowerString message
  let contextLower := lowerString (context.getD "")
  if jsIncludes msg "unauthorized" || jsIncludes msg "authentication" ||
     jsIncludes msg "invalid token" || jsIncludes msg "jwt" then
    createError ErrorType.authentication "Please sign in to continue." (some message)
      { code := some "AUTH_REQUIRED"
        suggestions := some ["Sign in to your account", "Check if your session has expired"]
        retryable := some false }
  else if jsIncludes msg "forbidden" || jsIncludes msg "access denied" ||
     jsIncludes msg "insufficient permissions" then
    createError ErrorType.authorization
      "You don\x27t have permission to perform this action." (some message)
      { code := some "ACCESS_DENIED"
        retryable := some false }
  else if jsIncludes msg "rate limit" || jsIncludes msg "too many requests" ||
     jsIncludes msg "quota exceeded" then
    createError ErrorType.rate_limit
      "You\x27ve made too many requests. Please wait a moment before trying again."
      (some message)
      { code := some "RATE_LIMIT_EXCEEDED"
        suggestions := some ["Wait a few minutes before trying again",
          "Consider upgrading your plan for higher limits"]
        retryable := some true
        severity := some ErrorSeverity.medium }
  else if jsIncludes contextLower "payment" || jsIncludes contextLower "checkout" ||
     jsIncludes msg "payment" || jsIncludes msg "billing" || jsIncludes msg "creem" then
    createError ErrorType.payment
      "Payment processing failed. Please check your payment details and try again."
      (some message)
      { code := some "PAYMENT_FAILED"
        suggestions := some ["Check your payment method details",
          "Ensure you have sufficient funds", "Try a different payment method"]
        retryable := some true
        severity := some ErrorSeverity.high }
  else if jsIncludes msg "validation" || jsIncludes msg "invalid" ||
     jsIncludes msg "required" || jsIncludes msg "bad request" then
    createError ErrorType.validation "Please check your input and try again." (some message)
      { code := some "VALIDATION_ERROR"
        suggestions := some ["Double-check all form fields",
          "Ensure all required fields are filled", "Check for any invalid characters"]
        retryable := some false
        severity := some ErrorSeverity.low }
  else if jsIncludes msg "network" || jsIncludes msg "fetch" ||
     jsIncludes msg "connection" || jsIncludes msg "timeout" then
    createError ErrorType.network
      "Connection problem. Please check your internet connection and try again."
      (some message)
      { code := some "NETWORK_ERROR"
        suggestions := some ["Check your internet connection",
          "Try refreshing the page", "Wait a moment and try again"]
        retryable := some true
        severity := some ErrorSeverity.medium }
  else if jsIncludes contextLower "database" || jsIncludes contextLower "supabase" ||
     jsIncludes msg "database" || jsIncludes msg "constraint" || jsIncludes msg "duplicate" then
    createError ErrorType.database "Data storage error. Please try again." (some message)
      { code := some "DATABASE_ERROR"
        retryable := some true
        severity := some ErrorSeverity.high }
  else if jsIncludes contextLower "openai" || jsIncludes contextLower "generation" ||
     jsIncludes msg "openai" || jsIncludes msg "ai" || jsIncludes msg "api" then
    createError ErrorType.external_service
      "AI service is temporarily unavailable. Please try again in a few moments."
      (some message)
      { code := some "EXTERNAL_SERVICE_ERROR"
        suggestions := some ["Wait a few minutes and try again",
          "Try refreshing the page", "Contact support if the problem persists"]
        retryable := some true
        severity := some ErrorSeverity.medium }
  else
    createError ErrorType.internal "Something went wrong. Please try again." (some message)
      { severity := some ErrorSeverity.high
        retryable := some true
        suggestions := some ["Refresh the page and try again",
          "Contact support if the problem persists"] }

/-- Serialize an `AppError` back to a JavaScript object (absent optional
fields remain `undefined` properties, as on the TypeScript object literal). -/
def appErrorToJS (e : AppError) : JSVal :=
  JSVal.vobj
    [ ("type", JSVal.vstr (match e.type with
        | ErrorType.validation => "validation"
        | ErrorType.authentication => "authentication"
        | ErrorType.authorization => "authorization"
        | ErrorType.rate_limit => "rate_limit"
        | ErrorType.payment => "payment"
        | ErrorType.external_service => "external_service"
        | ErrorType.database => "database"
        | ErrorType.network => "network"
        | ErrorType.internal => "internal"
        | ErrorType.not_found => "not_found"
        | ErrorType.conflict => "conflict"))
    , ("severity", JSVal.vstr (match e.severity with
        | ErrorSeverity.low => "low"
        | ErrorSeverity.medium => "medium"
        | ErrorSeverity.high => "high"
        | ErrorSeverity.critical => "critical"))
    , ("message", JSVal.vstr e.message)
    , ("userMessage", JSVal.vstr e.userMessage)
    , ("code", (e.code.map JSVal.vstr).getD JSVal.vundef)
    , ("details", e.details.getD JSVal.vundef)
    , ("suggestions", (e.suggestions.map
        (fun l => JSVal.vobj (l.map (fun s => ("item", JSVal.vstr s))))).getD JSVal.vundef)
    , ("retryable", JSVal.vbool e.retryable) ]

/-- `handleError`: pass an already-typed error through unchanged, classify an
`Error` instance, and wrap anything else as an internal error. -/
def handleError (error : JSVal) (context : Option String) : JSVal :=
  if isAppError error then
    error
  else
    match error with
    | JSVal.verror m => appErrorToJS (classifyError m context)
    | _ =>
        appErrorToJS (createError ErrorType.internal
          "An unexpected error occurred. Please try again."
          (some ("Unknown error: " ++ jsToString error))
          { severity := some ErrorSeverity.high
            retryable := some true
            suggestions := some ["Refresh the page and try again",
              "Check your internet connection"] })

end ErrorHandler

/-! ## Spec-side ordered rule table for the classifier

The specification describes classification as ordered substring matching over
the lowercased message and optional context, testing authentication, then
authorization, rate-limit, payment, validation, network, database and
external-service, first match winning.  The predicates below name the match
condition of each category; `specFirstMatchType` is the ordered
first-match table, to be compared with the source-translated `classifyError`. -/

def matchesAuthentication (msg : String) : Bool :=
  jsIncludes msg "unauthorized" || jsIncludes msg "authentication" ||
  jsIncludes msg "invalid token" || jsIncludes msg "jwt"

def matchesAuthorization (msg : String) : Bool :=
  jsIncludes msg "forbidden" || jsIncludes msg "access denied" ||
  jsIncludes msg "insufficient permissions"

def matchesRateLimit (msg : String) : Bool :=
  jsIncludes msg "rate limit" || jsIncludes msg "too many requests" ||
  jsIncludes msg "quota exceeded"

def matchesPayment (msg ctx : String) : Bool :=
  jsIncludes ctx "payment" || jsIncludes ctx "checkout" ||
  jsIncludes msg "payment" || jsIncludes msg "billing" || jsIncludes msg "creem"

def matchesValidation (msg : String) : Bool :=
  jsIncludes msg "validation" || jsIncludes msg "invalid" ||
  jsIncludes msg "required" || jsIncludes msg "bad request"

def matchesNetwork (msg : String) : Bool :=
  jsIncludes msg "network" || jsIncludes msg "fetch" ||
  jsIncludes msg "connection" || jsIncludes msg "timeout"

def matchesDatabase (msg ctx : String) : Bool :=
  jsIncludes ctx "database" || jsIncludes ctx "supabase" ||
  jsIncludes msg "database" || jsIncludes msg "constraint" || jsIncludes msg "duplicate"

def matchesExternalService (msg ctx : String) : Bool :=
  jsIncludes ctx "openai" || jsIncludes ctx "generation" ||
  jsIncludes msg "openai" || jsIncludes msg "ai" || jsIncludes msg "api"

/-- Ordered first-match classification table, following the priority order
of the specification, with the unmatched default `internal`. -/
def specFirstMatchType (msg ctx : String) : ErrorType :=
  if matchesAuthentication msg then ErrorType.authentication
  else if matchesAuthorization msg then ErrorType.authorization
  else if matchesRateLimit msg then ErrorType.rate_limit
  else if matchesPayment msg ctx then ErrorType.payment
  else if matchesValidation msg then ErrorType.validation
  else if matchesNetwork msg then ErrorType.network
  else if matchesDatabase msg ctx then ErrorType.database
  else if matchesExternalService msg ctx then ErrorType.external_service
  else ErrorType.internal


/-- C5 counterexample: the message "boom" matches none of the eight match
categories, and the classifier assigns it type internal with severity high —
not severity critical as the claim states. -/
theorem classifyError_unmatched_severity_not_critical :
    specFirstMatchType (lowerString "boom") (lowerString "") = ErrorType.internal ∧
    (ErrorHandler.classifyError "boom" none).type = ErrorType.internal ∧
    (ErrorHandler.classifyError "boom" none).severity ≠ ErrorSeverity.critical := by
  decide

/-- C5 (amended): classification is ordered substring matching over the
lowercased message and optional context, testing authentication, then
authorization, rate-limit, payment, validation, network, database and
external-service, first match winning; a failure matching none of these is
classified as type internal with severity high. -/
theorem classifyError_ordered_first_match (m : String) (c : Option String) :
    (ErrorHandler.classifyError m c).type
      = specFirstMatchType (lowerString m) (lowerString (c.getD ""))
    ∧ (specFirstMatchType (lowerString m) (lowerString (c.getD "")) = ErrorType.internal →
        (ErrorHandler.classifyError m c).severity = ErrorSeverity.high) := by
  simp only [ErrorHandler.classifyError, specFirstMatchType, matchesAuthentication,
    matchesAuthorization, matchesRateLimit, matchesPayment, matchesValidation,
    matchesNetwork, matchesDatabase, matchesExternalService]
  split_ifs <;> simp_all [ErrorHandler.createError]

/-- Witness for the amended C5 theorem at the concrete inputs
"invalid token" (an authentication match) and "boom" (no match). -/
theorem classifyError_ordered_first_match_witness :
    (ErrorHandler.classifyError "invalid token" none).type = ErrorType.authentication ∧
    (ErrorHandler.classifyError "boom" none).severity = ErrorSeverity.high := by
  constructor
  · have h := (classifyError_ordered_first_match "invalid token" none).1
    rw [h]
    decide
  · exact (classifyError_ordered_first_match "boom" none).2 (by decide)

/-- C9: the pass-through test for already-typed errors is purely structural —
any non-null object whose type and userMessage properties are strings is
returned unchanged by handleError, bypassing classification, whatever its
other fields hold. -/
theorem handleError_passthrough (fields : List (String × JSVal)) (ctx : Option String)
    (t u : String)
    (ht : objGet fields "type" = some (JSVal.vstr t))
    (hu : objGet fields "userMessage" = some (JSVal.vstr u)) :
    ErrorHandler.handleError (JSVal.vobj fields) ctx = JSVal.vobj fields := by
  have happ : isAppError (JSVal.vobj fields) = true := by
    simp [isAppError, ht, hu, isStrVal]
  unfold ErrorHandler.handleError
  rw [happ]
  simp

/-- Witness for C9 at a concrete object whose type is not one of the eleven
kinds and whose severity field is a malformed number. -/
theorem handleError_passthrough_witness :
    ErrorHandler.handleError
      (JSVal.vobj [("type", JSVal.vstr "banana"), ("userMessage", JSVal.vstr "hello"),
        ("severity", JSVal.vnum 42)]) none
    = JSVal.vobj [("type", JSVal.vstr "banana"), ("userMessage", JSVal.vstr "hello"),
        ("severity", JSVal.vnum 42)] :=
  handleError_passthrough _ none "banana" "hello" rfl rfl

/-! ## Memory cache (caching utility module)

Shallow embedding of `MemoryCache`: the backing `Map` is an association list
with JavaScript `Map` semantics (set replaces in place or appends; delete
removes the key), and `Date.now()` is passed explicitly as `now`. -/

structure CacheEntry (α : Type) where
  data : α
  timestamp : Int
  ttl : Int

namespace MemoryCache

/-- The backing `Map<string, CacheEntry>`. -/
def Store (α : Type) := List (String × CacheEntry α)

/-- JavaScript `Map.prototype.set`: replace the entry in place, else append. -/
def mapSet {α : Type} : Store α → String → CacheEntry α → Store α
  | [], k, e => [(k, e)]
  | p :: t, k, e => if p.1 = k then (k, e) :: t else p :: mapSet t k e

/-- JavaScript `Map.prototype.get`. -/
def mapGet {α : Type} (m : Store α) (k : String) : Option (CacheEntry α) :=
  (List.find? (fun p => p.1 == k) m).map (fun p => p.2)

/-- JavaScript `Map.prototype.delete`. -/
def mapDelete {α : Type} (m : Store α) (k : String) : Store α :=
  List.filter (fun p => !(p.1 == k)) m

/-- The cache method `set(key, data, ttlMs)` at time `now`. -/
def set {α : Type} (m : Store α) (now : Int) (key : String) (data : α)
    (ttlMs : Int) : Store α :=
  mapSet m key { data := data, timestamp := now, ttl := ttlMs }

/-- The cache method `get(key)` at time `now`: returns the stored value and
the updated store (an expired entry is deleted on access). -/
def get {α : Type} (m : Store α) (now : Int) (key : String) :
    Option α × Store α :=
  match mapGet m key with
  | none => (none, m)
  | some entry =>
      if now - entry.timestamp > entry.ttl then
        (none, mapDelete m key)
      else
        (some entry.data, m)

/-- The cache method `has(key)` at time `now`. -/
def hasKey {α : Type} (m : Store α) (now : Int) (key : String) : Bool × Store α :=
  match mapGet m key with
  | none => (false, m)
  | some entry =>
      if now - entry.timestamp > entry.ttl then
        (false, mapDelete m key)
      else
        (true, m)

theorem mapGet_mapSet_self {α : Type} (m : Store α) (k : String) (e : CacheEntry α) :
    mapGet (mapSet m k e) k = some e := by
  induction m with
  | nil => simp [mapSet, mapGet]
  | cons p t ih =>
      by_cases h : p.1 = k
      · simp [mapSet, mapGet, h]
      · simp only [mapSet, if_neg h]
        unfold mapGet
        rw [List.find?_cons_of_neg _ (by simp [h])]
        exact ih

theorem mapGet_mapDelete_self {α : Type} (m : Store α) (k : String) :
    mapGet (mapDelete m k) k = none := by
  have hfind : List.find? (fun p => p.1 == k)
      (List.filter (fun p => !(p.1 == k)) m) = none := by
    rw [List.find?_eq_none]
    intro x hx
    have hmem := List.of_mem_filter hx
    simpa using hmem
  simp [mapGet, mapDelete, hfind]

end MemoryCache

/-- C6: for every key, value and positive ttl, a get immediately after the
set returns the value, and once elapsed time strictly exceeds the ttl, get
returns the absent sentinel and the expired entry has been evicted from the
store. -/
theorem cache_set_get_roundtrip {α : Type} (m : MemoryCache.Store α)
    (k : String) (v : α) (ttl now later : Int) (httl : 0 < ttl) :
    (MemoryCache.get (MemoryCache.set m now k v ttl) now k).1 = some v
    ∧ (later - now > ttl →
        (MemoryCache.get (MemoryCache.set m now k v ttl) later k).1 = none
        ∧ MemoryCache.mapGet
            (MemoryCache.get (MemoryCache.set m now k v ttl) later k).2 k = none) := by
  constructor
  · simp only [MemoryCache.get, MemoryCache.set, MemoryCache.mapGet_mapSet_self]
    have hnot : ¬(now - now > ttl) := by omega
    rw [if_neg hnot]
  · intro hlate
    simp only [MemoryCache.get, MemoryCache.set, MemoryCache.mapGet_mapSet_self]
    rw [if_pos hlate]
    exact ⟨rfl, MemoryCache.mapGet_mapDelete_self _ k⟩

/-- Witness for C6 with a singleton cache of naturals: set at time 100 with
ttl 5, read back at 100 and again at 106. -/
theorem cache_set_get_roundtrip_witness :
    (MemoryCache.get (MemoryCache.set ([] : MemoryCache.Store Nat) 100 "k" 3 5) 100 "k").1
      = some 3
    ∧ (MemoryCache.get (MemoryCache.set ([] : MemoryCache.Store Nat) 100 "k" 3 5) 106 "k").1
      = none
    ∧ MemoryCache.mapGet
        (MemoryCache.get (MemoryCache.set ([] : MemoryCache.Store Nat) 100 "k" 3 5) 106 "k").2 "k"
      = none := by
  have h := cache_set_get_roundtrip ([] : MemoryCache.Store Nat) "k" 3 5 100 106 (by decide)
  exact ⟨h.1, (h.2 (by decide)).1, (h.2 (by decide)).2⟩

/-! ## Subscription configuration and the checkout route

Shallow embedding of `SUBSCRIPTION_TIERS` / `CREDITS_TIERS` (the `productId`
of each tier is an environment variable with a literal fallback, so the tier
lists are parameterised by the environment) and of the resolution logic of
`POST /api/creem/create-checkout`. -/

structure ProductTier where
  name : String
  id : String
  productId : String
  featured : Bool
  creditAmount : Option Int
deriving DecidableEq, Repr

/-- Environment variables read by the tier configuration. -/
structure CreemEnv where
  starterProductId : Option String := none
  businessProductId : Option String := none
  enterpriseProductId : Option String := none
  basicCreditsId : Option String := none
  standardCreditsId : Option String := none
  premiumCreditsId : Option String := none

/-- JavaScript `process.env.X || fallback` (an empty variable is falsy). -/
def envOr : Option String → String → String
  | some s, fb => if s = "" then fb else s
  | none, fb => fb

def starterTier (env : CreemEnv) : ProductTier :=
  { name := "Starter", id := "tier-hobby",
    productId := envOr env.starterProductId "prod_starter_monthly",
    featured := false, creditAmount := none }

def businessTier (env : CreemEnv) : ProductTier :=
  { name := "Business", id := "tier-pro",
    productId := envOr env.businessProductId "prod_business_monthly",
    featured := true, creditAmount := none }

def enterpriseTier (env : CreemEnv) : ProductTier :=
  { name := "Enterprise", id := "tier-enterprise",
    productId := envOr env.enterpriseProductId "prod_enterprise_monthly",
    featured := false, creditAmount := none }

def SUBSCRIPTION_TIERS (env : CreemEnv) : List ProductTier :=
  [starterTier env, businessTier env, enterpriseTier env]

def basicCreditsTier (env : CreemEnv) : ProductTier :=
  { name := "Basic Package", id := "tier-3-credits",
    productId := envOr env.basicCreditsId "prod_basic_credits",
    featured := false, creditAmount := some 3 }

def standardCreditsTier (env : CreemEnv) : ProductTier :=
  { name := "Standard Package", id := "tier-6-credits",
    productId := envOr env.standardCreditsId "prod_standard_credits",
    featured := true, creditAmount := some 6 }

def premiumCreditsTier (env : CreemEnv) : ProductTier :=
  { name := "Premium Package", id := "tier-9-credits",
    productId := envOr env.premiumCreditsId "prod_premium_credits",
    featured := false, creditAmount := some 9 }

def CREDITS_TIERS (env : CreemEnv) : List ProductTier :=
  [basicCreditsTier env, standardCreditsTier env, premiumCreditsTier env]

inductive ProductType where
  | subscription
  | credits
deriving DecidableEq, Repr

/-- The record returned by the resolve helpers of the route. -/
structure Resolved where
  productId : String
  type : ProductType
  credits_amount : Option Int := none
deriving DecidableEq, Repr

/-- `resolveFromTierId`: a falsy tierId resolves to null; a subscription tier
match wins over a credits tier match; an unknown id resolves to null. -/
def resolveFromTierId (env : CreemEnv) (tierId : Option String) : Option Resolved :=
  if !(strTruthy tierId) then none
  else
    let tid := tierId.getD ""
    match (SUBSCRIPTION_TIERS env).find? (fun t => t.id == tid) with
    | some sub => some { productId := sub.productId, type := ProductType.subscription }
    | none =>
        match (CREDITS_TIERS env).find? (fun t => t.id == tid) with
        | some credit =>
            some { productId := credit.productId, type := ProductType.credits,
                   credits_amount := credit.creditAmount }
        | none => none

/-- `resolveFromProductId`: like `resolveFromTierId` but keyed on productId;
an unknown non-empty productId defaults to credits without a credit amount. -/
def resolveFromProductId (env : CreemEnv) (productId : Option String) : Option Resolved :=
  if !(strTruthy productId) then none
  else
    let pid := productId.getD ""
    match (SUBSCRIPTION_TIERS env).find? (fun t => t.productId == pid) with
    | some sub => some { productId := sub.productId, type := ProductType.subscription }
    | none =>
        match (CREDITS_TIERS env).find? (fun t => t.productId == pid) with
        | some credit =>
            some { productId := credit.productId, type := ProductType.credits,
                   credits_amount := credit.creditAmount }
        | none => some { productId := pid, type := ProductType.credits }

/-- `pickDefaultCreditsTier`: the featured credits tier, otherwise the first. -/
def pickDefaultCreditsTier (env : CreemEnv) : ProductTier :=
  ((CREDITS_TIERS env).find? (fun t => t.featured)).getD (basicCreditsTier env)

structure CheckoutBody where
  productId : Option String := none
  tierId : Option String := none
  productType : Option String := none
  credits_amount : Option Int := none
  discountCode : Option String := none

/-- What the route passes to `createCheckoutSession`: the resolved productId,
the resolved type, the normalized type actually sent, and the credit amount. -/
structure CheckoutSelection where
  productId : String
  type : ProductType
  normalizedType : ProductType
  credits_amount : Option Int
deriving DecidableEq, Repr

/-- The product-selection logic of `POST /api/creem/create-checkout`
(resolution chain, productType-hint fallback, credit-amount defaulting and
productType normalization). -/
def resolveCheckoutSelection (env : CreemEnv) (body : CheckoutBody) : CheckoutSelection :=
  let resolved0 : Option Resolved :=
    match resolveFromProductId env body.productId with
    | some r => some r
    | none => resolveFromTierId env body.tierId
  let resolved : Resolved :=
    match resolved0 with
    | some r => r
    | none =>
        let hint := lowerString (body.productType.getD "")
        if hint = "subscription" then
          { productId := ((SUBSCRIPTION_TIERS env).headD (starterTier env)).productId,
            type := ProductType.subscription }
        else
          let picked := pickDefaultCreditsTier env
          { productId := picked.productId, type := ProductType.credits,
            credits_amount := picked.creditAmount }
  let credits_amount : Option Int :=
    if numTruthy resolved.credits_amount && body.credits_amount.isNone then
      resolved.credits_amount
    else
      body.credits_amount
  let normalizedType : ProductType :=
    if strTruthy body.productType &&
       jsIncludes (lowerString (body.productType.getD "")) "credit" then
      ProductType.credits
    else
      resolved.type
  { productId := resolved.productId, type := resolved.type,
    normalizedType := normalizedType, credits_amount := credits_amount }

/-- C7: a checkout request whose body carries tierId "tier-hobby" and no
productId resolves to the productId of the Starter subscription tier with type
subscription passed on to checkout-session creation. -/
theorem checkout_tier_hobby_resolves_starter (env : CreemEnv) :
    resolveCheckoutSelection env { tierId := some "tier-hobby" }
      = { productId := (starterTier env).productId, type := ProductType.subscription,
          normalizedType := ProductType.subscription, credits_amount := none } := by
  rfl

/-- C8: a checkout request with productType "chinese-name-credits", no
productId, and a tierId matching no configured tier falls back to the default
credits tier — the featured one — using its productId and its creditAmount as
the credit amount when the body supplies none. -/
theorem checkout_unknown_type_falls_back_featured (env : CreemEnv) (tid : Option String)
    (h : resolveFromTierId env tid = none) :
    resolveCheckoutSelection env { productType := some "chinese-name-credits", tierId := tid }
      = { productId := (pickDefaultCreditsTier env).productId, type := ProductType.credits,
          normalizedType := ProductType.credits,
          credits_amount := (pickDefaultCreditsTier env).creditAmount }
    ∧ pickDefaultCreditsTier env = standardCreditsTier env
    ∧ (standardCreditsTier env).featured = true := by
  refine ⟨?_, rfl, rfl⟩
  unfold resolveCheckoutSelection
  simp only [h]
  rfl

/-- Witness for C8 at the empty environment with the unknown tier id
"tier-unknown": the fallback is the Standard credits package. -/
theorem checkout_unknown_type_falls_back_featured_witness :
    resolveCheckoutSelection {}
      { productType := some "chinese-name-credits", tierId := some "tier-unknown" }
      = { productId := "prod_standard_credits", type := ProductType.credits,
          normalizedType := ProductType.credits, credits_amount := some 6 } :=
  (checkout_unknown_type_falls_back_featured {} (some "tier-unknown") rfl).1

/-! ## PDF-generation route

Shallow embedding of `POST /api/generate-pdf`.  The collaborators (session,
body parser, renderer availability, customer fetch, render, balance update)
are modelled by a `PdfEnv` of their observed outcomes; the handler is a pure
function from that environment to the response together with the observable
effects: whether a render was attempted, the resulting customer balance,
and the `credits_history` rows inserted. -/

structure CharacterEntry where
  character : String
  pinyin : String
  meaning : String
  explanation : String
deriving DecidableEq, Repr

structure NameData where
  chinese : String
  pinyin : String
  characters : List CharacterEntry
  meaning : String
  culturalNotes : String
  personalityMatch : String
  style : String
deriving DecidableEq, Repr

structure UserData where
  englishName : String
  gender : String
deriving DecidableEq, Repr

structure Customer where
  id : String
  user_id : String
  credits : Int
deriving DecidableEq, Repr

/-- A `credits_history` insert, with the metadata fields the route writes. -/
structure HistoryRow where
  customer_id : String
  amount : Int
  type : String
  description : String
  chinese_name : String
  english_name : String
  credits_before : Int
  credits_after : Int
deriving DecidableEq, Repr

inductive PdfResponse where
  | json (status : Nat) (error : String) (creditsRequired currentCredits : Option Int)
  | file (status : Nat) (contentType : String) (buffer : List Nat) (fileName : String)
deriving DecidableEq, Repr

/-- Outcomes of the collaborators of the route for one request. -/
structure PdfEnv where
  user : Option String
  parseOk : Bool
  nameData : Option NameData
  userData : Option UserData
  pdfAvailable : Bool
  fetchError : Bool
  customer : Option Customer
  renderResult : Except String (List Nat)
  updateOk : Bool

structure PdfOutcome where
  response : PdfResponse
  renderAttempted : Bool
  finalCredits : Option Int
  history : List HistoryRow
deriving DecidableEq, Repr

/-- The `POST` handler of the PDF route, step for step: auth, body parse,
missing-data check, availability check, customer fetch, credit gate, render,
balance decrement, ledger insert, response. -/
def POSTgeneratePdf (env : PdfEnv) : PdfOutcome :=
  let creditsOf : Option Int := env.customer.map (fun c => c.credits)
  match env.user with
  | none =>
      { response := PdfResponse.json 401 "Authentication required for PDF generation" none none
        renderAttempted := false, finalCredits := creditsOf, history := [] }
  | some _ =>
      if env.parseOk = false then
        { response := PdfResponse.json 500
            "PDF generation service is temporarily unavailable. Please try again later."
            none none
          renderAttempted := false, finalCredits := creditsOf, history := [] }
      else
        match env.nameData, env.userData with
        | some nameData, some userData =>
            if env.pdfAvailable = false then
              { response := PdfResponse.json 503
                  "PDF generation service is currently unavailable. Please try again later."
                  none none
                renderAttempted := false, finalCredits := creditsOf, history := [] }
            else if env.fetchError = true then
              { response := PdfResponse.json 500 "Unable to verify user credits" none none
                renderAttempted := false, finalCredits := creditsOf, history := [] }
            else
              match env.customer with
              | none =>
                  { response := PdfResponse.json 403
                      "Insufficient credits. PDF generation requires 1 credit."
                      (some 1) (some 0)
                    renderAttempted := false, finalCredits := none, history := [] }
              | some customer =>
                  if customer.credits < 1 then
                    { response := PdfResponse.json 403
                        "Insufficient credits. PDF generation requires 1 credit."
                        (some 1)
                        (some (if customer.credits = 0 then 0 else customer.credits))
                      renderAttempted := false, finalCredits := some customer.credits
                      history := [] }
                  else
                    match env.renderResult with
                    | Except.error _ =>
                        { response := PdfResponse.json 500
                            "Failed to generate PDF certificate. Please try again." none none
                          renderAttempted := true, finalCredits := some customer.credits
                          history := [] }
                    | Except.ok pdfBuffer =>
                        let fileName := nameData.chinese ++ "_certificate.pdf"
                        let newCredits := customer.credits - 1
                        if env.updateOk = false then
                          { response := PdfResponse.file 200 "application/pdf" pdfBuffer fileName
                            renderAttempted := true, finalCredits := some customer.credits
                            history := [] }
                        else
                          { response := PdfResponse.file 200 "application/pdf" pdfBuffer fileName
                            renderAttempted := true, finalCredits := some newCredits
                            history := [{ customer_id := customer.id, amount := 1
                                          type := "subtract", description := "pdf_generation"
                                          chinese_name := nameData.chinese
                                          english_name := userData.englishName
                                          credits_before := customer.credits
                                          credits_after := newCredits }] }
        | _, _ =>
            { response := PdfResponse.json 400 "Missing required data: nameData and userData"
                none none
              renderAttempted := false, finalCredits := creditsOf, history := [] }

/-- C1: an authenticated customer with exactly 1 credit whose render and
balance update succeed gets a 200 application/pdf response, ends at 0
credits, and exactly one credits_history row with amount 1 and type subtract
is appended. -/
theorem pdf_success_charges_one_credit (u cid uid : String) (nd : NameData)
    (ud : UserData) (buf : List Nat) :
    POSTgeneratePdf
      { user := some u, parseOk := true, nameData := some nd, userData := some ud
        pdfAvailable := true, fetchError := false
        customer := some { id := cid, user_id := uid, credits := 1 }
        renderResult := Except.ok buf, updateOk := true }
    = { response := PdfResponse.file 200 "application/pdf" buf (nd.chinese ++ "_certificate.pdf")
        renderAttempted := true, finalCredits := some 0
        history := [{ customer_id := cid, amount := 1, type := "subtract"
                      description := "pdf_generation", chinese_name := nd.chinese
                      english_name := ud.englishName
                      credits_before := 1, credits_after := 0 }] } := by
  rfl

/-- C2: an authenticated customer whose balance is below 1 credit gets a 403
whose body carries creditsRequired 1 and currentCredits equal to the balance;
no render is attempted and no credits_history row is appended, whatever the
renderer or the balance update would have done. -/
theorem pdf_insufficient_credits_403 (u cid uid : String) (c : Int) (nd : NameData)
    (ud : UserData) (rr : Except String (List Nat)) (upd : Bool) (hlow : c < 1) :
    POSTgeneratePdf
      { user := some u, parseOk := true, nameData := some nd, userData := some ud
        pdfAvailable := true, fetchError := false
        customer := some { id := cid, user_id := uid, credits := c }
        renderResult := rr, updateOk := upd }
    = { response := PdfResponse.json 403
          "Insufficient credits. PDF generation requires 1 credit." (some 1) (some c)
        renderAttempted := false, finalCredits := some c, history := [] } := by
  have hcc : (if c = 0 then (0 : Int) else c) = c := by
    by_cases h0 : c = 0 <;> simp [h0]
  simp [POSTgeneratePdf, hlow, hcc]

/-- Witness for C2 at balance 0. -/
theorem pdf_insufficient_credits_403_witness :
    POSTgeneratePdf
      { user := some "u1", parseOk := true
        nameData := some { chinese := "Ming", pinyin := "ming", characters := []
                           meaning := "bright", culturalNotes := "n"
                           personalityMatch := "p", style := "s" }
        userData := some { englishName := "Alice", gender := "female" }
        pdfAvailable := true, fetchError := false
        customer := some { id := "c1", user_id := "u1", credits := 0 }
        renderResult := Except.ok [], updateOk := true }
    = { response := PdfResponse.json 403
          "Insufficient credits. PDF generation requires 1 credit." (some 1) (some 0)
        renderAttempted := false, finalCredits := some 0, history := [] } :=
  pdf_insufficient_credits_403 "u1" "c1" "u1" 0
    { chinese := "Ming", pinyin := "ming", characters := [], meaning := "bright"
      culturalNotes := "n", personalityMatch := "p", style := "s" }
    { englishName := "Alice", gender := "female" }
    (Except.ok []) true (by decide)

/-- C3: when the render raises, no charge is applied — the balance is
unchanged, no credits_history row is appended, and the response is a 500
error. -/
theorem pdf_render_failure_no_charge (u cid uid : String) (c : Int) (nd : NameData)
    (ud : UserData) (e : String) (upd : Bool) (hge : 1 ≤ c) :
    POSTgeneratePdf
      { user := some u, parseOk := true, nameData := some nd, userData := some ud
        pdfAvailable := true, fetchError := false
        customer := some { id := cid, user_id := uid, credits := c }
        renderResult := Except.error e, updateOk := upd }
    = { response := PdfResponse.json 500
          "Failed to generate PDF certificate. Please try again." none none
        renderAttempted := true, finalCredits := some c, history := [] } := by
  have hnl : ¬(c < 1) := by omega
  simp [POSTgeneratePdf, hnl]

/-- Witness for C3 at balance 2 and a renderer that throws. -/
theorem pdf_render_failure_no_charge_witness :
    POSTgeneratePdf
      { user := some "u1", parseOk := true
        nameData := some { chinese := "Ming", pinyin := "ming", characters := []
                           meaning := "bright", culturalNotes := "n"
                           personalityMatch := "p", style := "s" }
        userData := some { englishName := "Alice", gender := "female" }
        pdfAvailable := true, fetchError := false
        customer := some { id := "c1", user_id := "u1", credits := 2 }
        renderResult := Except.error "Puppeteer generation failed: crash", updateOk := true }
    = { response := PdfResponse.json 500
          "Failed to generate PDF certificate. Please try again." none none
        renderAttempted := true, finalCredits := some 2, history := [] } :=
  pdf_render_failure_no_charge "u1" "c1" "u1" 2
    { chinese := "Ming", pinyin := "ming", characters := [], meaning := "bright"
      culturalNotes := "n", personalityMatch := "p", style := "s" }
    { englishName := "Alice", gender := "female" }
    "Puppeteer generation failed: crash" true (by decide)

/-- C4: when the render succeeds but the balance decrement fails, the caller
still receives the 200 application/pdf response (the balance stays unchanged
and no ledger row is written). -/
theorem pdf_update_failure_still_200 (u cid uid : String) (c : Int) (nd : NameData)
    (ud : UserData) (buf : List Nat) (hge : 1 ≤ c) :
    POSTgeneratePdf
      { user := some u, parseOk := true, nameData := some nd, userData := some ud
        pdfAvailable := true, fetchError := false
        customer := some { id := cid, user_id := uid, credits := c }
        renderResult := Except.ok buf, updateOk := false }
    = { response := PdfResponse.file 200 "application/pdf" buf (nd.chinese ++ "_certificate.pdf")
        renderAttempted := true, finalCredits := some c, history := [] } := by
  have hnl : ¬(c < 1) := by omega
  simp [POSTgeneratePdf, hnl]

/-- Witness for C4 at balance 1 with a failing balance update. -/
theorem pdf_update_failure_still_200_witness :
    POSTgeneratePdf
      { user := some "u1", parseOk := true
        nameData := some { chinese := "Ming", pinyin := "ming", characters := []
                           meaning := "bright", culturalNotes := "n"
                           personalityMatch := "p", style := "s" }
        userData := some { englishName := "Alice", gender := "female" }
        pdfAvailable := true, fetchError := false
        customer := some { id := "c1", user_id := "u1", credits := 1 }
        renderResult := Except.ok [37, 80, 68, 70], updateOk := false }
    = { response := PdfResponse.file 200 "application/pdf" [37, 80, 68, 70]
          "Ming_certificate.pdf"
        renderAttempted := true, finalCredits := some 1, history := [] } :=
  pdf_update_failure_still_200 "u1" "c1" "u1" 1
    { chinese := "Ming", pinyin := "ming", characters := [], meaning := "bright"
      culturalNotes := "n", personalityMatch := "p", style := "s" }
    { englishName := "Alice", gender := "female" }
    [37, 80, 68, 70] (by decide)

/-- C10: a credits_history row is inserted only when the preceding balance
update reported success — whenever the balance update fails, the handler
appends no ledger row, in every reachable branch of the route. -/
theorem pdf_no_ledger_without_update (env : PdfEnv) (h : env.updateOk = false) :
    (POSTgeneratePdf env).history = [] := by
  unfold POSTgeneratePdf
  repeat' split
  all_goals simp_all

/-- Witness for C10 at a fully successful request whose balance update fails. -/
theorem pdf_no_ledger_without_update_witness :
    (POSTgeneratePdf
      { user := some "u1", parseOk := true
        nameData := some { chinese := "Ming", pinyin := "ming", characters := []
                           meaning := "bright", culturalNotes := "n"
                           personalityMatch := "p", style := "s" }
        userData := some { englishName := "Alice", gender := "female" }
        pdfAvailable := true, fetchError := false
        customer := some { id := "c1", user_id := "u1", credits := 3 }
        renderResult := Except.ok [1], updateOk := false }).history = [] :=
  pdf_no_ledger_without_update _ rfl
